import Mathlib

/-!
Verification model of the `DeviceData` data-element abstraction of the
`opcua-sensor-interface` repository (`src/DeviceData.h`).

`src/DeviceData.h` contains the full class declaration: both constructors
(with their member-initialiser bodies), the permission accessors
`getWritable`, `getReadable`, `getObserveable`, and the declarations of
`getVal`, `setVal`, `observeVal` and `valueChanged`.  The bodies of those
four operations live in a translation unit that is not part of the visible
sources, as does the value container `DeviceDataValue.h`; they are
modelled here from the specification and marked as such in their doc
comments.  Everything else is translated directly from the header.

The pure-virtual native hooks (`getValNative`, `setValNative`,
`observeValNative`) are protocol-driver extension points; dynamic dispatch
is embedded by passing each call's hook outcome as an explicit argument,
which quantifies over arbitrary (even stateful) driver behaviour.
Callback invocation and hook invocation are observable side effects and
are recorded as an explicit event trace.
-/

namespace OpcUa

/-- Modelled from the spec: the type-tag enumeration `DeviceDataValue::e_type`
of the value container (`DeviceDataValue.h` is not among the visible
sources); the spec fixes a closed set of scalar kinds: integer, floating
point, string, boolean. -/
inductive DeviceDataValue.e_type where
  | TYPE_INTEGER
  | TYPE_FLOAT
  | TYPE_STRING
  | TYPE_BOOLEAN
  deriving DecidableEq, Repr

/-- Modelled from the spec: the value container `DeviceDataValue`
(`DeviceDataValue.h` is not among the visible sources): a tagged scalar
value holder that carries its type tag at all times.  The floating-point
payload is kept abstract as its machine bit pattern, since no claim
computes with float arithmetic. -/
inductive DeviceDataValue where
  | intVal (v : Int)
  | floatVal (bits : Nat)
  | stringVal (s : String)
  | boolVal (b : Bool)
  deriving DecidableEq, Repr

/-- The type tag carried by a value. -/
def DeviceDataValue.getType : DeviceDataValue → DeviceDataValue.e_type
  | .intVal _ => .TYPE_INTEGER
  | .floatVal _ => .TYPE_FLOAT
  | .stringVal _ => .TYPE_STRING
  | .boolVal _ => .TYPE_BOOLEAN

/-- Modelled from the spec: constructing a `DeviceDataValue` from a type tag
alone (the `DeviceDataValue(type)` constructor used by the `DeviceData`
constructors) yields a zero-initialised value carrying that tag. -/
def DeviceDataValue.ofType : DeviceDataValue.e_type → DeviceDataValue
  | .TYPE_INTEGER => .intVal 0
  | .TYPE_FLOAT => .floatVal 0
  | .TYPE_STRING => .stringVal ""
  | .TYPE_BOOLEAN => .boolVal false

/-- `DeviceData::e_access`: `ACCESS_NONE = 0x00` (src/DeviceData.h:82). -/
def DeviceData.ACCESS_NONE : Nat := 0x00

/-- `DeviceData::e_access`: `ACCESS_READ = 0x01` (src/DeviceData.h:84). -/
def DeviceData.ACCESS_READ : Nat := 0x01

/-- `DeviceData::e_access`: `ACCESS_WRITE = 0x02` (src/DeviceData.h:86). -/
def DeviceData.ACCESS_WRITE : Nat := 0x02

/-- `DeviceData::e_access`: `ACCESS_OBSERVE = 0x04` (src/DeviceData.h:88). -/
def DeviceData.ACCESS_OBSERVE : Nat := 0x04

/-- `DeviceData::s_cb` (src/DeviceData.h:288-293): a registered callback
entry, a (function pointer, user parameter) pair.  The function pointer
`pf_cb` and the opaque `void* p_param` are modelled as abstract
addresses. -/
structure s_cb where
  pf_cb : Nat
  p_param : Nat
  deriving DecidableEq, Repr

/-- The member state of `DeviceData` (src/DeviceData.h:265-296): name,
description, the three permission flags, the observation flag `m_observed`,
the cached value `m_val`, and the registered-callback vector `m_cbs`. -/
structure DeviceData where
  m_name : String
  m_descr : String
  m_readable : Bool
  m_writable : Bool
  m_observable : Bool
  m_observed : Bool
  m_val : DeviceDataValue
  m_cbs : List s_cb
  deriving DecidableEq, Repr

/-- The default constructor `DeviceData()` (src/DeviceData.h:95-103):
name and description `"undefined"`, readable but neither writable nor
observable, not observed, value `DeviceDataValue(TYPE_INTEGER)`, and the
default-constructed (empty) callback vector. -/
def DeviceData.mkDefault : DeviceData where
  m_name := "undefined"
  m_descr := "undefined"
  m_readable := true
  m_writable := false
  m_observable := false
  m_observed := false
  m_val := DeviceDataValue.ofType .TYPE_INTEGER
  m_cbs := []

/-- The four-argument constructor
`DeviceData(name, descr, type, access)` (src/DeviceData.h:113-125):
each permission flag is the int-to-bool conversion of `access & FLAG`,
the observation flag starts false, the value is `DeviceDataValue(type)`,
and the callback vector is cleared. -/
def DeviceData.construct (name descr : String) (type : DeviceDataValue.e_type)
    (access : Nat) : DeviceData where
  m_name := name
  m_descr := descr
  m_readable := access &&& DeviceData.ACCESS_READ != 0
  m_writable := access &&& DeviceData.ACCESS_WRITE != 0
  m_observable := access &&& DeviceData.ACCESS_OBSERVE != 0
  m_observed := false
  m_val := DeviceDataValue.ofType type
  m_cbs := []

/-- `DeviceData::getName` (src/DeviceData.h:137-140). -/
def DeviceData.getName (d : DeviceData) : String := d.m_name

/-- `DeviceData::getDescr` (src/DeviceData.h:147-150). -/
def DeviceData.getDescr (d : DeviceData) : String := d.m_descr

/-- `DeviceData::getWritable` (src/DeviceData.h:157-160). -/
def DeviceData.getWritable (d : DeviceData) : Bool := d.m_writable

/-- `DeviceData::getReadable` (src/DeviceData.h:167-170). -/
def DeviceData.getReadable (d : DeviceData) : Bool := d.m_readable

/-- `DeviceData::getObserveable` (src/DeviceData.h:177-180). -/
def DeviceData.getObserveable (d : DeviceData) : Bool := d.m_observable

/-- The error taxonomy of the spec (section 7): discrete statuses returned
synchronously, never thrown.  The concrete `int16_t` codes are private to
the missing translation unit, so statuses are modelled abstractly. -/
inductive Status where
  | Ok
  | AccessDenied
  | TypeMismatch
  | ObserveNotSupported
  | NativeFailure
  deriving DecidableEq, Repr

/-- Observable side effects of one operation: invocations of the three
native driver hooks and invocations of registered callbacks (with the
value and user parameter passed to them). -/
inductive Event where
  | hookGet
  | hookSet (v : DeviceDataValue)
  | hookObserve
  | callback (cb : Nat) (v : DeviceDataValue) (param : Nat)
  deriving DecidableEq, Repr

/-- Result of `getVal`: status, the value returned to the caller (absent
when access is denied), the post state, and the event trace. -/
structure GetResult where
  status : Status
  retVal : Option DeviceDataValue
  state : DeviceData
  events : List Event
  deriving DecidableEq, Repr

/-- Result of `setVal` or `observeVal`: status, post state, event trace. -/
structure OpResult where
  status : Status
  state : DeviceData
  events : List Event
  deriving DecidableEq, Repr

/-- Result of `valueChanged` (a `void` member): post state and trace. -/
structure NotifyResult where
  state : DeviceData
  events : List Event
  deriving DecidableEq, Repr

/-- Modelled from the spec: the body of `DeviceData::getVal` (only declared
at src/DeviceData.h:187).  `native` is the outcome of this call's
`getValNative` hook: `some v` when the hook reports success and produces a
value, `none` when it reports an error.  Per the spec, a non-readable
element fails with `AccessDenied` before reaching the hook; otherwise the
hook is invoked, on success the cache is updated and returned, and on hook
error the call fails with `NativeFailure` with the previous cached value
returned unchanged. -/
def DeviceData.getVal (d : DeviceData) (native : Option DeviceDataValue) :
    GetResult :=
  if d.m_readable then
    match native with
    | some v => ⟨Status.Ok, some v, { d with m_val := v }, [Event.hookGet]⟩
    | none => ⟨Status.NativeFailure, some d.m_val, d, [Event.hookGet]⟩
  else
    ⟨Status.AccessDenied, none, d, []⟩

/-- Dispatch of change notifications: every entry of the callback vector
is invoked once, in vector (registration) order, receiving the new value
and its own stored user parameter. -/
def dispatch (cbs : List s_cb) (v : DeviceDataValue) : List Event :=
  cbs.map (fun c => Event.callback c.pf_cb v c.p_param)

/-- Modelled from the spec: the body of `DeviceData::setVal` (only declared
at src/DeviceData.h:196).  `nativeOk` is the outcome of this call's
`setValNative` hook (`true` iff the hook returns 0).  Per the spec, a
non-writable element fails with `AccessDenied`; a value whose type tag
differs from the declared type fails with `TypeMismatch`; both before the
hook is reached.  Otherwise the hook is invoked; on success the cache is
replaced by the supplied value and notifications are dispatched, on hook
error the call fails with `NativeFailure` with the cache unchanged. -/
def DeviceData.setVal (d : DeviceData) (val : DeviceDataValue)
    (nativeOk : Bool) : OpResult :=
  if d.m_writable then
    if val.getType = d.m_val.getType then
      if nativeOk then
        ⟨Status.Ok, { d with m_val := val },
          Event.hookSet val :: dispatch d.m_cbs val⟩
      else
        ⟨Status.NativeFailure, d, [Event.hookSet val]⟩
    else
      ⟨Status.TypeMismatch, d, []⟩
  else
    ⟨Status.AccessDenied, d, []⟩

/-- Modelled from the spec: the body of `DeviceData::observeVal` (only
declared at src/DeviceData.h:210).  `nativeOk` is the outcome of this
call's `observeValNative` hook.  Per the spec, a non-observable element
fails (`ObserveNotSupported`) and registers nothing; otherwise the
(callback, parameter) pair is appended to the callback vector, and the
native observe hook is invoked only when observation is not yet active:
on hook success `m_observed` is set, on hook error the call fails with
`NativeFailure` with the subscription still recorded. -/
def DeviceData.observeVal (d : DeviceData) (cb p_param : Nat)
    (nativeOk : Bool) : OpResult :=
  if d.m_observable then
    let d1 : DeviceData := { d with m_cbs := d.m_cbs ++ [⟨cb, p_param⟩] }
    if d.m_observed then
      ⟨Status.Ok, d1, []⟩
    else
      if nativeOk then
        ⟨Status.Ok, { d1 with m_observed := true }, [Event.hookObserve]⟩
      else
        ⟨Status.NativeFailure, d1, [Event.hookObserve]⟩
  else
    ⟨Status.ObserveNotSupported, d, []⟩

/-- Modelled from the spec: the body of the protected
`DeviceData::valueChanged` (only declared at src/DeviceData.h:222).
Per the spec it replaces the cached value and invokes every registered
callback once, in registration order, with the new value and its own
stored parameter.  The type-tag validation the spec describes is a fatal
precondition on the driver (a mismatch is a driver bug, not a recoverable
error), so it appears as a hypothesis of the theorems, not as a branch. -/
def DeviceData.valueChanged (d : DeviceData) (val : DeviceDataValue) :
    NotifyResult :=
  ⟨{ d with m_val := val }, dispatch d.m_cbs val⟩

/-- One abstract call against a data element, carrying the outcome the
protocol driver's native hook would report for that call (which embeds
arbitrary, even stateful, driver behaviour). -/
inductive Op where
  | read (native : Option DeviceDataValue)
  | write (v : DeviceDataValue) (nativeOk : Bool)
  | observe (cb p_param : Nat) (nativeOk : Bool)
  | notify (v : DeviceDataValue)
  deriving DecidableEq, Repr

/-- The state reached after one call. -/
def DeviceData.step (d : DeviceData) : Op → DeviceData
  | .read native => (d.getVal native).state
  | .write v nativeOk => (d.setVal v nativeOk).state
  | .observe cb p nativeOk => (d.observeVal cb p nativeOk).state
  | .notify v => (d.valueChanged v).state

/-- The state reached after a sequence of calls. -/
def DeviceData.run (d : DeviceData) : List Op → DeviceData
  | [] => d
  | op :: ops => (d.step op).run ops

/-- A call respects the stated driver preconditions for declared type `t`:
a value produced by the native read hook carries tag `t`, and a value
pushed through `valueChanged` carries tag `t` (the spec makes both driver
obligations). -/
def Op.wellTyped (t : DeviceDataValue.e_type) : Op → Bool
  | .read (some v) => v.getType == t
  | .read none => true
  | .notify v => v.getType == t
  | .write _ _ => true
  | .observe _ _ _ => true

/-- A sequence of `observeVal` calls whose native-hook outcomes all report
success, returning the final state and each call's event trace in order. -/
def DeviceData.runObserves (d : DeviceData) :
    List (Nat × Nat) → DeviceData × List (List Event)
  | [] => (d, [])
  | c :: rest =>
    let r := d.observeVal c.1 c.2 true
    let s := r.state.runObserves rest
    (s.1, r.events :: s.2)

/-- Sample element for concrete witnesses: default element with two
registered subscriptions. -/
def sampleTwoSubs : DeviceData :=
  { DeviceData.mkDefault with m_cbs := [⟨1, 10⟩, ⟨2, 20⟩] }

/-- Sample element for concrete witnesses: writable default element. -/
def sampleWritable : DeviceData :=
  { DeviceData.mkDefault with m_writable := true }

/-- Sample element for concrete witnesses: writable default element with one
registered subscription. -/
def sampleWritableSub : DeviceData :=
  { sampleWritable with m_cbs := [⟨1, 10⟩] }

/-- Sample element for concrete witnesses: observable default element. -/
def sampleObservable : DeviceData :=
  { DeviceData.mkDefault with m_observable := true }

/-- Sample element for concrete witnesses: non-readable default element. -/
def sampleUnreadable : DeviceData :=
  { DeviceData.mkDefault with m_readable := false }

/-! ### Helper lemmas -/

/-- No operation changes the three permission flags. -/
theorem step_flags (d : DeviceData) (op : Op) :
    (d.step op).m_readable = d.m_readable
    ∧ (d.step op).m_writable = d.m_writable
    ∧ (d.step op).m_observable = d.m_observable := by
  cases op with
  | read native =>
    cases native <;> by_cases hr : d.m_readable <;>
      simp [DeviceData.step, DeviceData.getVal, hr]
  | write v hk =>
    by_cases hw : d.m_writable
    · by_cases ht : v.getType = d.m_val.getType <;> cases hk <;>
        simp [DeviceData.step, DeviceData.setVal, hw, ht]
    · simp [DeviceData.step, DeviceData.setVal, hw]
  | observe cb p hk =>
    by_cases ho : d.m_observable
    · by_cases hob : d.m_observed <;> cases hk <;>
        simp [DeviceData.step, DeviceData.observeVal, ho, hob]
    · simp [DeviceData.step, DeviceData.observeVal, ho]
  | notify v => simp [DeviceData.step, DeviceData.valueChanged]

/-- No sequence of operations changes `m_readable`. -/
theorem run_m_readable (d : DeviceData) (ops : List Op) :
    (d.run ops).m_readable = d.m_readable := by
  induction ops generalizing d with
  | nil => rfl
  | cons op ops ih => rw [DeviceData.run, ih, (step_flags d op).1]

/-- No sequence of operations changes `m_writable`. -/
theorem run_m_writable (d : DeviceData) (ops : List Op) :
    (d.run ops).m_writable = d.m_writable := by
  induction ops generalizing d with
  | nil => rfl
  | cons op ops ih => rw [DeviceData.run, ih, (step_flags d op).2.1]

/-- No sequence of operations changes `m_observable`. -/
theorem run_m_observable (d : DeviceData) (ops : List Op) :
    (d.run ops).m_observable = d.m_observable := by
  induction ops generalizing d with
  | nil => rfl
  | cons op ops ih => rw [DeviceData.run, ih, (step_flags d op).2.2]

/-- One well-typed operation keeps the cached value at the declared tag. -/
theorem step_getType (d : DeviceData) (op : Op) (t : DeviceDataValue.e_type)
    (hd : d.m_val.getType = t) (hop : op.wellTyped t = true) :
    (d.step op).m_val.getType = t := by
  cases op with
  | read native =>
    cases native with
    | none =>
      by_cases hr : d.m_readable <;>
        simp [DeviceData.step, DeviceData.getVal, hr, hd]
    | some v =>
      simp only [Op.wellTyped, beq_iff_eq] at hop
      by_cases hr : d.m_readable <;>
        simp [DeviceData.step, DeviceData.getVal, hr, hd, hop]
  | write v hk =>
    by_cases hw : d.m_writable
    · by_cases ht : v.getType = d.m_val.getType
      · have hv : v.getType = t := ht.trans hd
        cases hk <;> simp [DeviceData.step, DeviceData.setVal, hw, ht, hd, hv]
      · have ht2 : ¬v.getType = t := fun hx => ht (hx.trans hd.symm)
        simp [DeviceData.step, DeviceData.setVal, hw, ht2, hd]
    · simp [DeviceData.step, DeviceData.setVal, hw, hd]
  | observe cb p hk =>
    by_cases ho : d.m_observable
    · by_cases hob : d.m_observed <;> cases hk <;>
        simp [DeviceData.step, DeviceData.observeVal, ho, hob, hd]
    · simp [DeviceData.step, DeviceData.observeVal, ho, hd]
  | notify v =>
    simp only [Op.wellTyped, beq_iff_eq] at hop
    simp [DeviceData.step, DeviceData.valueChanged, hop]

/-- A well-typed sequence keeps the cached value at the declared tag. -/
theorem run_getType (d : DeviceData) (ops : List Op) (t : DeviceDataValue.e_type)
    (hd : d.m_val.getType = t) (h : ∀ op ∈ ops, op.wellTyped t = true) :
    (d.run ops).m_val.getType = t := by
  induction ops generalizing d with
  | nil => exact hd
  | cons op ops ih =>
    exact ih _ (step_getType d op t hd (h op (by simp)))
      (fun o ho => h o (List.mem_cons_of_mem _ ho))

/-- On an element that is observable and already observing, a sequence of
`observeVal` calls emits no events, appends every subscription in order,
and leaves the element observing. -/
theorem runObserves_observed (d : DeviceData) (calls : List (Nat × Nat))
    (ho : d.m_observable = true) (hob : d.m_observed = true) :
    (d.runObserves calls).2 = calls.map (fun _ => ([] : List Event))
    ∧ (d.runObserves calls).1.m_cbs
        = d.m_cbs ++ calls.map (fun c => ⟨c.1, c.2⟩)
    ∧ (d.runObserves calls).1.m_observed = true := by
  induction calls generalizing d with
  | nil => simp [DeviceData.runObserves, hob]
  | cons c rest ih =>
    have hstate : (d.observeVal c.1 c.2 true).state
        = { d with m_cbs := d.m_cbs ++ [⟨c.1, c.2⟩] } := by
      simp [DeviceData.observeVal, ho, hob]
    have hevents : (d.observeVal c.1 c.2 true).events = [] := by
      simp [DeviceData.observeVal, ho, hob]
    have ih1 := ih { d with m_cbs := d.m_cbs ++ [⟨c.1, c.2⟩] } ho hob
    refine ⟨?_, ?_, ?_⟩ <;>
      simp [DeviceData.runObserves, hstate, hevents, ih1.1, ih1.2.1, ih1.2.2]

/-! ### Claim theorems -/

/-- Claim C1: for every element constructed with an access mask lacking the
writable bit, every call to `setVal` — after any prior sequence of
operations, with any value and any native-hook outcome — fails with
`AccessDenied`, and the cached value after the call equals the cached
value before the call. -/
theorem spec_C1_write_always_denied (name descr : String)
    (type : DeviceDataValue.e_type) (access : Nat) (ops : List Op)
    (v : DeviceDataValue) (nativeOk : Bool)
    (h : access &&& DeviceData.ACCESS_WRITE = 0) :
    (((DeviceData.construct name descr type access).run ops).setVal v
        nativeOk).status = Status.AccessDenied
    ∧ (((DeviceData.construct name descr type access).run ops).setVal v
        nativeOk).state.m_val
      = ((DeviceData.construct name descr type access).run ops).m_val := by
  have hw : ((DeviceData.construct name descr type access).run ops).m_writable
      = false := by
    rw [run_m_writable]
    simp [DeviceData.construct, h]
  simp [DeviceData.setVal, hw]

/-- Witness for C1 at a concrete read-only element. -/
theorem spec_C1_write_always_denied_witness :
    (1 &&& DeviceData.ACCESS_WRITE = 0)
    ∧ ((((DeviceData.construct "temp" "Temperature" .TYPE_FLOAT 1).run
          []).setVal (.floatVal 5) true).status = Status.AccessDenied
        ∧ ((((DeviceData.construct "temp" "Temperature" .TYPE_FLOAT 1).run
          []).setVal (.floatVal 5) true).state.m_val
          = ((DeviceData.construct "temp" "Temperature" .TYPE_FLOAT 1).run
              []).m_val)) :=
  ⟨by decide,
    spec_C1_write_always_denied "temp" "Temperature" .TYPE_FLOAT 1 []
      (.floatVal 5) true (by decide)⟩

/-- Claim C2: for every element, every value `v` of the declared type and
every registered subscription list, `valueChanged v` replaces the cached
value with `v` and invokes each currently registered handler exactly once,
in registration order, passing `v` and that subscription's own stored
parameter (the event trace equals the callback list mapped in order). -/
theorem spec_C2_notify_dispatch (d : DeviceData) (v : DeviceDataValue)
    (h : v.getType = d.m_val.getType) :
    (d.valueChanged v).state.m_val = v
    ∧ (d.valueChanged v).events
        = d.m_cbs.map (fun c => Event.callback c.pf_cb v c.p_param) :=
  ⟨rfl, rfl⟩

/-- Witness for C2: two registered handlers, each invoked once with the new
value and its own parameter, in registration order. -/
theorem spec_C2_notify_dispatch_witness :
    ((DeviceDataValue.intVal 7).getType = sampleTwoSubs.m_val.getType)
    ∧ ((sampleTwoSubs.valueChanged (.intVal 7)).state.m_val
          = DeviceDataValue.intVal 7
        ∧ (sampleTwoSubs.valueChanged (.intVal 7)).events
          = sampleTwoSubs.m_cbs.map
              (fun c => Event.callback c.pf_cb (.intVal 7) c.p_param)) :=
  ⟨by decide, spec_C2_notify_dispatch sampleTwoSubs (.intVal 7) (by decide)⟩

/-- Claim C3: for every writable element and every supplied value whose type
tag differs from the element's declared type (the tag of the cached value,
which equals the declared type by the C9 invariant), `setVal` fails with
`TypeMismatch`, the native write hook is not invoked (the event trace is
empty), and the state — in particular the cached value — is unchanged. -/
theorem spec_C3_type_mismatch_before_hook (d : DeviceData)
    (v : DeviceDataValue) (nativeOk : Bool) (hw : d.m_writable = true)
    (ht : v.getType ≠ d.m_val.getType) :
    (d.setVal v nativeOk).status = Status.TypeMismatch
    ∧ (d.setVal v nativeOk).events = []
    ∧ (d.setVal v nativeOk).state = d := by
  simp [DeviceData.setVal, hw, ht]

/-- Witness for C3: a string value written to a writable integer element. -/
theorem spec_C3_type_mismatch_before_hook_witness :
    (sampleWritable.m_writable = true)
    ∧ ((DeviceDataValue.stringVal "x").getType
        ≠ sampleWritable.m_val.getType)
    ∧ (sampleWritable.setVal (.stringVal "x") true).status
        = Status.TypeMismatch
    ∧ (sampleWritable.setVal (.stringVal "x") true).events = []
    ∧ (sampleWritable.setVal (.stringVal "x") true).state = sampleWritable := by
  have h := spec_C3_type_mismatch_before_hook sampleWritable (.stringVal "x")
    true (by decide) (by decide)
  exact ⟨by decide, by decide, h.1, h.2.1, h.2.2⟩

/-- Claim C4: on an observable element not yet observing, a nonempty
sequence of `observeVal` calls whose native hook reports success invokes
the native observe hook exactly once — on the first call — and never again
on the later calls; every call appends its (handler, parameter) pair in
order, and the element ends (and remains) observing. -/
theorem spec_C4_observe_hook_only_first (d : DeviceData) (c : Nat × Nat)
    (calls : List (Nat × Nat)) (ho : d.m_observable = true)
    (hn : d.m_observed = false) :
    (d.runObserves (c :: calls)).2
        = [Event.hookObserve] :: calls.map (fun _ => ([] : List Event))
    ∧ (d.runObserves (c :: calls)).1.m_cbs
        = d.m_cbs ++ (c :: calls).map (fun x => ⟨x.1, x.2⟩)
    ∧ (d.runObserves (c :: calls)).1.m_observed = true := by
  have hstate : (d.observeVal c.1 c.2 true).state
      = { d with m_cbs := d.m_cbs ++ [⟨c.1, c.2⟩], m_observed := true } := by
    simp [DeviceData.observeVal, ho, hn]
  have hevents : (d.observeVal c.1 c.2 true).events = [Event.hookObserve] := by
    simp [DeviceData.observeVal, ho, hn]
  have hrest := runObserves_observed
    { d with m_cbs := d.m_cbs ++ [⟨c.1, c.2⟩], m_observed := true } calls ho rfl
  refine ⟨?_, ?_, ?_⟩ <;>
    simp [DeviceData.runObserves, hstate, hevents, hrest.1, hrest.2.1,
      hrest.2.2]

/-- Witness for C4: two observe calls; the hook fires on the first only. -/
theorem spec_C4_observe_hook_only_first_witness :
    (sampleObservable.m_observable = true)
    ∧ (sampleObservable.m_observed = false)
    ∧ (sampleObservable.runObserves [(1, 10), (2, 20)]).2
        = [[Event.hookObserve], []]
    ∧ (sampleObservable.runObserves [(1, 10), (2, 20)]).1.m_cbs
        = [⟨1, 10⟩, ⟨2, 20⟩]
    ∧ (sampleObservable.runObserves [(1, 10), (2, 20)]).1.m_observed
        = true := by
  have h := spec_C4_observe_hook_only_first sampleObservable (1, 10) [(2, 20)]
    (by decide) (by decide)
  refine ⟨by decide, by decide, ?_, ?_, h.2.2⟩
  · simpa using h.1
  · simpa [sampleObservable, DeviceData.mkDefault] using h.2.1

/-- Claim C5: `getVal` on a non-readable element fails with `AccessDenied`
and leaves the state unchanged (whatever the native hook would report);
on a readable element whose native read hook reports an error it fails
with `NativeFailure`, the previous cached value is left unchanged, and
that previous cached value is the one returned to the caller. -/
theorem spec_C5_read_failures (d : DeviceData)
    (native : Option DeviceDataValue) :
    (d.m_readable = false →
      (d.getVal native).status = Status.AccessDenied
      ∧ (d.getVal native).state = d)
    ∧ (d.m_readable = true →
      (d.getVal none).status = Status.NativeFailure
      ∧ (d.getVal none).state.m_val = d.m_val
      ∧ (d.getVal none).retVal = some d.m_val) := by
  constructor
  · intro hr
    simp [DeviceData.getVal, hr]
  · intro hr
    simp [DeviceData.getVal, hr]

/-- Witness for C5, applying the theorem at a non-readable element for the
first part and at a readable element with a failing hook for the second. -/
theorem spec_C5_read_failures_witness :
    (sampleUnreadable.m_readable = false)
    ∧ (sampleUnreadable.getVal (some (.intVal 3))).status
        = Status.AccessDenied
    ∧ (sampleUnreadable.getVal (some (.intVal 3))).state = sampleUnreadable
    ∧ (DeviceData.mkDefault.m_readable = true)
    ∧ (DeviceData.mkDefault.getVal none).status = Status.NativeFailure
    ∧ (DeviceData.mkDefault.getVal none).state.m_val
        = DeviceData.mkDefault.m_val
    ∧ (DeviceData.mkDefault.getVal none).retVal
        = some DeviceData.mkDefault.m_val := by
  have h1 := (spec_C5_read_failures sampleUnreadable
    (some (.intVal 3))).1 (by decide)
  have h2 := (spec_C5_read_failures DeviceData.mkDefault none).2 (by decide)
  exact ⟨by decide, h1.1, h1.2, by decide, h2.1, h2.2.1, h2.2.2⟩

/-- Claim C6: for every construction with access mask `access`,
`getReadable` / `getWritable` / `getObserveable` return exactly whether the
`ACCESS_READ` / `ACCESS_WRITE` / `ACCESS_OBSERVE` bit is set in `access`,
and no subsequent sequence of operations (read, write, observe, notify)
changes the result of any of these accessors. -/
theorem spec_C6_permissions_from_mask_immutable (name descr : String)
    (type : DeviceDataValue.e_type) (access : Nat) (ops : List Op) :
    ((DeviceData.construct name descr type access).run ops).getReadable
        = (access &&& DeviceData.ACCESS_READ != 0)
    ∧ ((DeviceData.construct name descr type access).run ops).getWritable
        = (access &&& DeviceData.ACCESS_WRITE != 0)
    ∧ ((DeviceData.construct name descr type access).run ops).getObserveable
        = (access &&& DeviceData.ACCESS_OBSERVE != 0) := by
  refine ⟨?_, ?_, ?_⟩
  · rw [DeviceData.getReadable, run_m_readable]; rfl
  · rw [DeviceData.getWritable, run_m_writable]; rfl
  · rw [DeviceData.getObserveable, run_m_observable]; rfl

/-- Claim C7: for every element constructed without the observable bit,
every `observeVal` call — after any prior sequence of operations, with any
handler, parameter and native-hook outcome — fails (with
`ObserveNotSupported`) and leaves the whole state, in particular the
subscription list, unchanged. -/
theorem spec_C7_observe_denied_no_subscription (name descr : String)
    (type : DeviceDataValue.e_type) (access : Nat) (ops : List Op)
    (cb p_param : Nat) (nativeOk : Bool)
    (h : access &&& DeviceData.ACCESS_OBSERVE = 0) :
    (((DeviceData.construct name descr type access).run ops).observeVal cb
        p_param nativeOk).status = Status.ObserveNotSupported
    ∧ (((DeviceData.construct name descr type access).run ops).observeVal cb
        p_param nativeOk).state
      = (DeviceData.construct name descr type access).run ops := by
  have ho : ((DeviceData.construct name descr type access).run
      ops).m_observable = false := by
    rw [run_m_observable]
    simp [DeviceData.construct, h]
  simp [DeviceData.observeVal, ho]

/-- Witness for C7 at a concrete read-write element. -/
theorem spec_C7_observe_denied_no_subscription_witness :
    (3 &&& DeviceData.ACCESS_OBSERVE = 0)
    ∧ ((((DeviceData.construct "sp" "Setpoint" .TYPE_INTEGER 3).run
          []).observeVal 1 10 true).status = Status.ObserveNotSupported
        ∧ ((((DeviceData.construct "sp" "Setpoint" .TYPE_INTEGER 3).run
          []).observeVal 1 10 true).state
          = (DeviceData.construct "sp" "Setpoint" .TYPE_INTEGER 3).run [])) :=
  ⟨by decide,
    spec_C7_observe_denied_no_subscription "sp" "Setpoint" .TYPE_INTEGER 3 []
      1 10 true (by decide)⟩

/-- Claim C8: for every writable element and every supplied value of the
declared type, `setVal` delegates to the native write hook (the hook
invocation heads the event trace in both outcomes); when the hook reports
success the call succeeds, the cached value equals the supplied value, and
the registered handlers are dispatched; when the hook reports an error the
call fails with `NativeFailure` and the state is unchanged. -/
theorem spec_C8_write_delegates_and_updates (d : DeviceData)
    (v : DeviceDataValue) (hw : d.m_writable = true)
    (ht : v.getType = d.m_val.getType) :
    (d.setVal v true).status = Status.Ok
    ∧ (d.setVal v true).state.m_val = v
    ∧ (d.setVal v true).events = Event.hookSet v :: dispatch d.m_cbs v
    ∧ (d.setVal v false).status = Status.NativeFailure
    ∧ (d.setVal v false).state = d
    ∧ (d.setVal v false).events = [Event.hookSet v] := by
  simp [DeviceData.setVal, hw, ht]

/-- Witness for C8: a writable integer element with one registered handler. -/
theorem spec_C8_write_delegates_and_updates_witness :
    (sampleWritableSub.m_writable = true)
    ∧ ((DeviceDataValue.intVal 9).getType
        = sampleWritableSub.m_val.getType)
    ∧ (sampleWritableSub.setVal (.intVal 9) true).status = Status.Ok
    ∧ (sampleWritableSub.setVal (.intVal 9) true).state.m_val
        = DeviceDataValue.intVal 9
    ∧ (sampleWritableSub.setVal (.intVal 9) true).events
        = Event.hookSet (.intVal 9)
            :: dispatch sampleWritableSub.m_cbs (.intVal 9)
    ∧ (sampleWritableSub.setVal (.intVal 9) false).status
        = Status.NativeFailure
    ∧ (sampleWritableSub.setVal (.intVal 9) false).state = sampleWritableSub
    ∧ (sampleWritableSub.setVal (.intVal 9) false).events
        = [Event.hookSet (.intVal 9)] := by
  have h := spec_C8_write_delegates_and_updates sampleWritableSub
    (.intVal 9) (by decide) (by decide)
  exact ⟨by decide, by decide, h.1, h.2.1, h.2.2.1, h.2.2.2.1, h.2.2.2.2.1,
    h.2.2.2.2.2⟩

/-- Claim C9: for every element constructed with declared type `type` and
every sequence of operations respecting the stated driver preconditions
(read-hook values and `valueChanged` values carry the declared tag —
ill-typed writes need no precondition, `setVal` rejects them itself), the
type tag of the cached value always equals the declared type. -/
theorem spec_C9_cache_tag_invariant (name descr : String)
    (type : DeviceDataValue.e_type) (access : Nat) (ops : List Op)
    (h : ∀ op ∈ ops, op.wellTyped type = true) :
    ((DeviceData.construct name descr type access).run ops).m_val.getType
      = type := by
  have hbase : (DeviceData.construct name descr type access).m_val.getType
      = type := by
    cases type <;> rfl
  exact run_getType _ _ _ hbase h

/-- Witness for C9 at a concrete element run through a read (with a fresh
hook value), an ill-typed write, a well-typed write, an observe, and a
driver notification. -/
theorem spec_C9_cache_tag_invariant_witness :
    (∀ op ∈ [Op.read (some (.intVal 4)), Op.write (.stringVal "x") true,
        Op.write (.intVal 5) true, Op.observe 1 10 true,
        Op.notify (.intVal 6)],
      op.wellTyped DeviceDataValue.e_type.TYPE_INTEGER = true)
    ∧ ((DeviceData.construct "n" "d" .TYPE_INTEGER 7).run
          [Op.read (some (.intVal 4)), Op.write (.stringVal "x") true,
            Op.write (.intVal 5) true, Op.observe 1 10 true,
            Op.notify (.intVal 6)]).m_val.getType
        = DeviceDataValue.e_type.TYPE_INTEGER :=
  ⟨by decide,
    spec_C9_cache_tag_invariant "n" "d" .TYPE_INTEGER 7
      [Op.read (some (.intVal 4)), Op.write (.stringVal "x") true,
        Op.write (.intVal 5) true, Op.observe 1 10 true,
        Op.notify (.intVal 6)] (by decide)⟩

/-- Claim C10: a default-constructed element has name `"undefined"`,
description `"undefined"`, declared type integer, is readable but neither
writable nor observable, and observation is inactive — constants fixed by
the default constructor, independent of any access mask. -/
theorem spec_C10_default_constructor :
    DeviceData.mkDefault.getName = "undefined"
    ∧ DeviceData.mkDefault.getDescr = "undefined"
    ∧ DeviceData.mkDefault.m_val.getType
        = DeviceDataValue.e_type.TYPE_INTEGER
    ∧ DeviceData.mkDefault.getReadable = true
    ∧ DeviceData.mkDefault.getWritable = false
    ∧ DeviceData.mkDefault.getObserveable = false
    ∧ DeviceData.mkDefault.m_observed = false :=
  ⟨rfl, rfl, rfl, rfl, rfl, rfl, rfl⟩

end OpcUa
